import Mathlib

/-!
Verification of the templar deployment-glue repository: the PM2 process
launch descriptor set (ecosystem.config.js), the interactive docker_run
launch script, and the ansible restart tasks that address PM2 processes
by role prefix and index.
-/

namespace Templar

/-! ### Ambient environment model

The ambient process environment (process.env in node, the shell
environment in bash) is a partial map from variable names to values. -/

abbrev Env := String → Option String

/-! ### ecosystem.config.js -/

/-- Character class of the shell pipeline filter tr -dc a-z0-9:
lowercase letters and decimal digits. -/
def isSuffixChar (c : Char) : Bool :=
  decide ((97 ≤ c.toNat ∧ c.toNat ≤ 122) ∨ (48 ≤ c.toNat ∧ c.toNat ≤ 57))

/-- RANDOM_SUFFIX: the shell pipeline cat /dev/urandom | tr -dc a-z0-9 |
fold -w 4 | head -n 1, then .toString().trim(), modelled on the random
byte stream read from /dev/urandom: tr -dc keeps only the a-z0-9
characters, fold -w 4 breaks the result into 4-character lines, head -n 1
keeps the first line, and trim drops the trailing newline — i.e. the
first four characters of the filtered stream. -/
def RANDOM_SUFFIX (urandom : List Char) : String :=
  String.mk ((urandom.filter isSuffixChar).take 4)

/-- PROJECT_NAME: the template literal test_ followed by RANDOM_SUFFIX. -/
def PROJECT_NAME (urandom : List Char) : String :=
  "test_" ++ RANDOM_SUFFIX urandom

/-- The env object of each app entry: the JavaScript spread
...process.env followed by the key PROJECT_NAME, which therefore maps
PROJECT_NAME to the generated run identifier and every other key to its
ambient value. -/
def spreadEnv (ambient : Env) (pn : String) : Env :=
  fun k => if k = "PROJECT_NAME" then some pn else ambient k

/-- One entry of module.exports.apps. -/
structure ProcessEntry where
  name : String
  script : String
  interpreter : String
  env : Env
  args : String

/-- module.exports.apps of ecosystem.config.js, with the run identifier
pn substituted where the template literals reference PROJECT_NAME.  The
TA1 entry is commented out in the source and therefore absent.  Note the
TM4 args template lacks the space between the closing quote of the
project substitution and --local, exactly as in the source. -/
def apps (ambient : Env) (pn : String) : List ProcessEntry :=
  [ { name := "TM1", script := "neurons/miner.py", interpreter := "python3",
      env := spreadEnv ambient pn,
      args := "--wallet.name Bistro --wallet.hotkey M1 --device cuda:2 --subtensor.network ws://127.0.0.1:9945 --netuid 1 --use_wandb --project \"" ++ pn ++ "\" --local" },
    { name := "TM2", script := "neurons/miner.py", interpreter := "python3",
      env := spreadEnv ambient pn,
      args := "--wallet.name Bistro --wallet.hotkey M2 --device cuda:3 --subtensor.network ws://127.0.0.1:9945 --netuid 1 --use_wandb --project \"" ++ pn ++ "\" --local" },
    { name := "TM3", script := "neurons/miner.py", interpreter := "python3",
      env := spreadEnv ambient pn,
      args := "--wallet.name Bistro --wallet.hotkey M3 --device cuda:4 --subtensor.network ws://127.0.0.1:9945 --netuid 1 --use_wandb --project \"" ++ pn ++ "\" --local" },
    { name := "TM4", script := "neurons/miner.py", interpreter := "python3",
      env := spreadEnv ambient pn,
      args := "--wallet.name Bistro --wallet.hotkey M4 --device cuda:5 --subtensor.network ws://127.0.0.1:9945 --netuid 1 --use_wandb --project \"" ++ pn ++ "\"--local" },
    { name := "TM5", script := "neurons/miner.py", interpreter := "python3",
      env := spreadEnv ambient pn,
      args := "--wallet.name Bistro --wallet.hotkey M5 --device cuda:6 --subtensor.network ws://127.0.0.1:9945 --netuid 1 --use_wandb --project \"" ++ pn ++ "\" --local" },
    { name := "TV1", script := "neurons/validator.py", interpreter := "python3",
      env := spreadEnv ambient pn,
      args := "--wallet.name Bistro --wallet.hotkey V1 --device cuda:1 --subtensor.network ws://127.0.0.1:9945 --netuid 1 --use_wandb --project \"" ++ pn ++ "\" --local" } ]

/-- One load of ecosystem.config.js: the run identifier is computed once
from the random stream and shared by every generated entry. -/
def moduleExports (ambient : Env) (urandom : List Char) : List ProcessEntry :=
  apps ambient (PROJECT_NAME urandom)

/-! ### Ansible restart tasks (templar_restart) -/

/-- Worker roles addressed by the restart tasks. -/
inductive Role where
  | miner
  | validator
  | aggregator
deriving DecidableEq, Repr

/-- Role prefix used to build the PM2 process name in the shell command
of each restart task: TM for miners, TV for validators, TA for
aggregators. -/
def rolePrefix : Role → String
  | Role.miner => "TM"
  | Role.validator => "TV"
  | Role.aggregator => "TA"

/-- One issued restart directive: the shell command and the working
directory (the chdir argument of the task). -/
structure Directive where
  command : String
  chdir : String
deriving DecidableEq, Repr

/-- The Jinja2 expression range(a, b) | list: the integers from a
(inclusive) to b (exclusive), in ascending order. -/
def rangeList (a b : Nat) : List Nat :=
  (List.range (b - a)).map (fun k => a + k)

/-- The rendered shell task for one loop item: pm2 restart
ecosystem.config.js --only with the process name built from the role
prefix and the index, run with chdir set to templar_path. -/
def restartDirective (role : Role) (i : Nat) (templar_path : String) : Directive :=
  { command := "pm2 restart ecosystem.config.js --only \"" ++ rolePrefix role ++ toString i ++ "\"",
    chdir := templar_path }

/-- One restart task of the playbook for a role whose hotkey list has
length count: loop over range(1, count + 1) | list, guarded by the
condition that the hotkey list is non-empty (when it is empty the task
is skipped and issues nothing). -/
def restartTask (role : Role) (count : Nat) (templar_path : String) : List Directive :=
  if count > 0 then
    (rangeList 1 (count + 1)).map (fun i => restartDirective role i templar_path)
  else []

/-! ### docker_run interactive launch script -/

/-- prompt_with_default: the bash substitution echoed by the function,
which yields the default exactly when the read response is empty and
the response itself otherwise. -/
def prompt_with_default (response dflt : String) : String :=
  if response = "" then dflt else response

/-- prompt_required: the while loop that re-reads while the response is
empty, modelled on the successive responses the operator types; it
returns the first non-empty response, or none when the (finite) list is
exhausted without one. -/
def prompt_required : List String → Option String
  | [] => none
  | r :: rs => if r = "" then prompt_required rs else some r

/-- The export line of docker_run: the variables exported for the
docker compose invocation. -/
def exportedVars : List String :=
  ["WALLET_NAME", "WALLET_HOTKEY", "WANDB_API_KEY", "NETWORK", "CUDA_DEVICE", "DEBUG"]

/-- COMPOSE_FILE: the string docker/compose.NODE_TYPE.yml with the
node-type value interpolated verbatim. -/
def COMPOSE_FILE (NODE_TYPE : String) : String :=
  "docker/compose." ++ NODE_TYPE ++ ".yml"

/-- The container start command of docker_run as an argument vector:
docker compose -f COMPOSE_FILE up -d. -/
def dockerComposeUp (NODE_TYPE : String) : List String :=
  ["docker", "compose", "-f", COMPOSE_FILE NODE_TYPE, "up", "-d"]

/-! ### String scanning helpers for the argument templates -/

/-- Whether pat is a leading segment of s. -/
def startsWithList : List Char → List Char → Bool
  | [], _ => true
  | _ :: _, [] => false
  | a :: p, b :: s => a == b && startsWithList p s

/-- Whether pat occurs contiguously anywhere in s. -/
def occursIn (pat : List Char) : List Char → Bool
  | [] => startsWithList pat []
  | b :: t => startsWithList pat (b :: t) || occursIn pat t

/-- Splits a character list at spaces; a run of k spaces produces k
boundaries, so doubled spaces would show up as empty tokens. -/
def splitAux : List Char → List Char → List (List Char)
  | [], acc => [acc.reverse]
  | c :: rest, acc =>
    if c == ' ' then acc.reverse :: splitAux rest []
    else splitAux rest (c :: acc)

/-- The space-separated tokens of an argument string. -/
def tokenStrings (s : String) : List String :=
  (splitAux s.toList []).map String.mk

/-- The entries of the loaded configuration whose name carries the
given role prefix. -/
def roleEntries (role : Role) (ambient : Env) (pn : String) : List ProcessEntry :=
  (apps ambient pn).filter
    (fun e => startsWithList (rolePrefix role).toList e.name.toList)

/-- The correctly spaced token sequence of a miner/validator argument
template: every flag and every value is its own token, ending with the
quoted project name and the separate --local flag. -/
def wellSpacedTokens (hk dev pn : String) : List String :=
  ["--wallet.name", "Bistro", "--wallet.hotkey", hk, "--device", dev,
   "--subtensor.network", "ws://127.0.0.1:9945", "--netuid", "1",
   "--use_wandb", "--project", "\"" ++ pn ++ "\"", "--local"]

/-- The token sequence with the trailing flag fused onto the quoted
project name by the missing separator. -/
def fusedTrailingTokens (hk dev pn : String) : List String :=
  ["--wallet.name", "Bistro", "--wallet.hotkey", hk, "--device", dev,
   "--subtensor.network", "ws://127.0.0.1:9945", "--netuid", "1",
   "--use_wandb", "--project", "\"" ++ pn ++ "\"--local"]

/-! ### Helper lemmas -/

theorem rangeList_one_succ (N : Nat) :
    rangeList 1 (N + 1) = (List.range N).map (fun k => k + 1) := by
  unfold rangeList
  simp [Nat.add_comm]

theorem restartTask_eq_map (role : Role) (N : Nat) (tp : String) :
    restartTask role N tp
      = (List.range N).map (fun k => restartDirective role (k + 1) tp) := by
  cases N with
  | zero => simp [restartTask]
  | succ n =>
    unfold restartTask
    rw [if_pos (Nat.succ_pos n), rangeList_one_succ, List.map_map]
    rfl

/-! ### Claim theorems -/

/-- C1: for every role and every externally supplied count N, the
restart controller issues exactly N restart directives — one per index
1..N, processed in ascending order (the k-th issued directive targets
index k + 1) — and issues zero directives when N = 0. -/
theorem restart_controller_issues_indexed_directives
    (role : Role) (N : Nat) (tp : String) :
    restartTask role N tp
        = (List.range N).map (fun k => restartDirective role (k + 1) tp) ∧
    (restartTask role N tp).length = N ∧
    restartTask role 0 tp = [] := by
  refine ⟨restartTask_eq_map role N tp, ?_, ?_⟩
  · rw [restartTask_eq_map]
    simp
  · simp [restartTask]

/-- C2: every directive issued for role R and some count N targets the
process name formed from the role prefix (TM for miner, TV for
validator, TA for aggregator) followed by an index between 1 and N, its
command has the form pm2 restart ecosystem.config.js --only with the
quoted process name, and it runs in the fixed working directory
templar_path where ecosystem.config.js is defined. -/
theorem restart_directive_targets_prefixed_name
    (role : Role) (N : Nat) (tp : String) (d : Directive)
    (hd : d ∈ restartTask role N tp) :
    rolePrefix Role.miner = "TM" ∧
    rolePrefix Role.validator = "TV" ∧
    rolePrefix Role.aggregator = "TA" ∧
    d.chdir = tp ∧
    ∃ i, 1 ≤ i ∧ i ≤ N ∧
      d.command
        = "pm2 restart ecosystem.config.js --only \"" ++ rolePrefix role ++ toString i ++ "\"" := by
  rw [restartTask_eq_map] at hd
  rcases List.mem_map.mp hd with ⟨k, hk, hdk⟩
  have hkN : k < N := List.mem_range.mp hk
  refine ⟨rfl, rfl, rfl, ?_, k + 1, ?_, ?_, ?_⟩
  · rw [← hdk]; rfl
  · exact Nat.succ_le_succ (Nat.zero_le k)
  · exact Nat.succ_le_of_lt hkN
  · rw [← hdk]; rfl

/-- Witness for C2 at role miner, count 1, working directory
/opt/templar. -/
theorem restart_directive_targets_prefixed_name_witness :
    restartDirective Role.miner 1 "/opt/templar"
        ∈ restartTask Role.miner 1 "/opt/templar" ∧
    (rolePrefix Role.miner = "TM" ∧
     rolePrefix Role.validator = "TV" ∧
     rolePrefix Role.aggregator = "TA" ∧
     (restartDirective Role.miner 1 "/opt/templar").chdir = "/opt/templar" ∧
     ∃ i, 1 ≤ i ∧ i ≤ 1 ∧
       (restartDirective Role.miner 1 "/opt/templar").command
         = "pm2 restart ecosystem.config.js --only \"" ++ rolePrefix Role.miner ++ toString i ++ "\"") :=
  ⟨by decide,
   restart_directive_targets_prefixed_name Role.miner 1 "/opt/templar"
     (restartDirective Role.miner 1 "/opt/templar") (by decide)⟩

theorem test_append_inj (a b : String) (h : "test_" ++ a = "test_" ++ b) :
    a = b := by
  have hd := congrArg String.data h
  simp only [String.data_append] at hd
  have h2 := List.append_cancel_left hd
  cases a; cases b
  congr 1

theorem mem_apps_env (ambient : Env) (pn : String) (e : ProcessEntry)
    (he : e ∈ apps ambient pn) : e.env = spreadEnv ambient pn := by
  simp only [apps, List.mem_cons] at he
  rcases he with h | h | h | h | h | h | h
  · rw [h]
  · rw [h]
  · rw [h]
  · rw [h]
  · rw [h]
  · rw [h]
  · exact absurd h (List.not_mem_nil e)

/-- C3: within one load of ecosystem.config.js the run identifier is
computed once and shared — every generated entry's environment maps
PROJECT_NAME to the same value, the identifier of that load — and two
independent loads whose random suffixes differ (as they do with
overwhelming probability) produce different identifiers. -/
theorem run_identifier_shared_within_load
    (ambient : Env) (u₁ u₂ : List Char)
    (hsuf : RANDOM_SUFFIX u₁ ≠ RANDOM_SUFFIX u₂) :
    (∀ e ∈ moduleExports ambient u₁,
        e.env "PROJECT_NAME" = some (PROJECT_NAME u₁)) ∧
    PROJECT_NAME u₁ ≠ PROJECT_NAME u₂ := by
  constructor
  · intro e he
    rw [mem_apps_env ambient (PROJECT_NAME u₁) e he]
    simp [spreadEnv]
  · intro hc
    exact hsuf (test_append_inj _ _ hc)

/-- Witness for C3: two loads whose /dev/urandom streams begin aaaa and
bbbb generate distinct suffixes. -/
theorem run_identifier_shared_within_load_witness :
    RANDOM_SUFFIX "aaaa".toList ≠ RANDOM_SUFFIX "bbbb".toList ∧
    ((∀ e ∈ moduleExports (fun _ => none) "aaaa".toList,
        e.env "PROJECT_NAME" = some (PROJECT_NAME "aaaa".toList)) ∧
     PROJECT_NAME "aaaa".toList ≠ PROJECT_NAME "bbbb".toList) :=
  ⟨by decide,
   run_identifier_shared_within_load (fun _ => none) "aaaa".toList "bbbb".toList
     (by decide)⟩

/-- C8: every entry's environment is the ambient environment with only
the PROJECT_NAME key overridden to the shared run identifier; every
other ambient key is passed through unchanged. -/
theorem entry_env_frame (ambient : Env) (urandom : List Char)
    (e : ProcessEntry) (he : e ∈ moduleExports ambient urandom)
    (k : String) (hk : k ≠ "PROJECT_NAME") :
    e.env "PROJECT_NAME" = some (PROJECT_NAME urandom) ∧
    e.env k = ambient k := by
  rw [mem_apps_env ambient (PROJECT_NAME urandom) e he]
  constructor
  · simp [spreadEnv]
  · simp [spreadEnv, hk]

/-- Witness for C8: the first entry of a load over an ambient
environment binding HOME, at the key HOME. -/
theorem entry_env_frame_witness :
    ((moduleExports (fun k => if k = "HOME" then some "/root" else none)
        "ab12".toList).get ⟨0, by decide⟩
      ∈ moduleExports (fun k => if k = "HOME" then some "/root" else none)
        "ab12".toList) ∧
    ("HOME" : String) ≠ "PROJECT_NAME" ∧
    (((moduleExports (fun k => if k = "HOME" then some "/root" else none)
        "ab12".toList).get ⟨0, by decide⟩).env "PROJECT_NAME"
        = some (PROJECT_NAME "ab12".toList) ∧
     ((moduleExports (fun k => if k = "HOME" then some "/root" else none)
        "ab12".toList).get ⟨0, by decide⟩).env "HOME"
        = (fun k => if k = "HOME" then some "/root" else none) "HOME") :=
  ⟨List.get_mem _ _ _, by decide,
   entry_env_frame (fun k => if k = "HOME" then some "/root" else none)
     "ab12".toList _ (List.get_mem _ _ _) "HOME" (by decide)⟩

/-- C9: whenever the random stream supplies at least four characters of
the class a-z0-9, the generated run identifier is the literal test_
followed by a suffix of exactly four characters, each a lowercase letter
or a digit. -/
theorem run_identifier_format (urandom : List Char)
    (h : 4 ≤ (urandom.filter isSuffixChar).length) :
    PROJECT_NAME urandom = "test_" ++ RANDOM_SUFFIX urandom ∧
    (RANDOM_SUFFIX urandom).length = 4 ∧
    ∀ c ∈ (RANDOM_SUFFIX urandom).toList, isSuffixChar c = true := by
  refine ⟨rfl, ?_, ?_⟩
  · show ((urandom.filter isSuffixChar).take 4).length = 4
    rw [List.length_take]
    omega
  · intro c hc
    have hmem : c ∈ urandom.filter isSuffixChar :=
      List.take_subset 4 _ hc
    exact (List.mem_filter.mp hmem).2

/-- Witness for C9: a stream beginning x7k2 (then non-class bytes). -/
theorem run_identifier_format_witness :
    4 ≤ ("x7k2!!".toList.filter isSuffixChar).length ∧
    (PROJECT_NAME "x7k2!!".toList
        = "test_" ++ RANDOM_SUFFIX "x7k2!!".toList ∧
     (RANDOM_SUFFIX "x7k2!!".toList).length = 4 ∧
     ∀ c ∈ (RANDOM_SUFFIX "x7k2!!".toList).toList, isSuffixChar c = true) :=
  ⟨by decide, run_identifier_format "x7k2!!".toList (by decide)⟩

theorem prompt_required_ne_empty (rs : List String) (v : String)
    (hv : prompt_required rs = some v) : v ≠ "" := by
  induction rs with
  | nil => exact absurd hv (by simp [prompt_required])
  | cons r rs ih =>
    by_cases hr : r = ""
    · exact ih (by simpa [prompt_required, hr] using hv)
    · have : some r = some v := by simpa [prompt_required, hr] using hv
      rw [← Option.some_inj.mp this]
      exact hr

/-- C4: a required interactive field never yields an empty accepted
value — the loop only returns a non-empty response — and an optional
field yields exactly its default when the input is empty and the
response itself otherwise; in particular a blank NETWORK resolves to
test. -/
theorem interactive_prompts_required_nonempty_default
    (rs : List String) (v : String) (hv : prompt_required rs = some v)
    (r d : String) (hr : r ≠ "") :
    v ≠ "" ∧
    prompt_with_default "" d = d ∧
    prompt_with_default r d = r ∧
    prompt_with_default "" "test" = "test" := by
  refine ⟨prompt_required_ne_empty rs v hv, ?_, ?_, ?_⟩
  · rfl
  · simp [prompt_with_default, hr]
  · rfl

/-- Witness for C4: the operator submits an empty line and then a
wallet name; the network prompt is answered non-blank once. -/
theorem interactive_prompts_required_nonempty_default_witness :
    prompt_required ["", "wallet1"] = some "wallet1" ∧
    ("finney" : String) ≠ "" ∧
    ("wallet1" : String) ≠ "" ∧
    (prompt_with_default "" "test" = "test" ∧
     prompt_with_default "finney" "test" = "finney" ∧
     prompt_with_default "" "test" = "test") :=
  ⟨by decide, by decide,
   (interactive_prompts_required_nonempty_default ["", "wallet1"] "wallet1"
      (by decide) "finney" "test" (by decide)).1,
   ⟨(interactive_prompts_required_nonempty_default ["", "wallet1"] "wallet1"
      (by decide) "finney" "test" (by decide)).2.1,
    (interactive_prompts_required_nonempty_default ["", "wallet1"] "wallet1"
      (by decide) "finney" "test" (by decide)).2.2.1,
    (interactive_prompts_required_nonempty_default ["", "wallet1"] "wallet1"
      (by decide) "finney" "test" (by decide)).2.2.2⟩⟩

/-- C5 counterexample: the claim that all seven interactive variables,
NODE_TYPE among them, are exported is false — NODE_TYPE is absent from
the export line of docker_run. -/
theorem all_seven_exported_false :
    ¬ (∀ v ∈ (["NODE_TYPE", "WALLET_NAME", "WALLET_HOTKEY", "WANDB_API_KEY",
               "NETWORK", "CUDA_DEVICE", "DEBUG"] : List String),
        v ∈ exportedVars) := by
  intro h
  exact absurd (h "NODE_TYPE" (by decide)) (by decide)

/-- C5 amended: exactly the six variables WALLET_NAME, WALLET_HOTKEY,
WANDB_API_KEY, NETWORK, CUDA_DEVICE and DEBUG are exported for the
container-compose invocation; NODE_TYPE is not exported but selects the
compose file docker/compose.NODE_TYPE.yml passed with -f. -/
theorem six_vars_exported_node_type_selects_compose (nt : String) :
    ("WALLET_NAME" ∈ exportedVars ∧ "WALLET_HOTKEY" ∈ exportedVars ∧
     "WANDB_API_KEY" ∈ exportedVars ∧ "NETWORK" ∈ exportedVars ∧
     "CUDA_DEVICE" ∈ exportedVars ∧ "DEBUG" ∈ exportedVars) ∧
    "NODE_TYPE" ∉ exportedVars ∧
    dockerComposeUp nt
      = ["docker", "compose", "-f", "docker/compose." ++ nt ++ ".yml", "up", "-d"] := by
  refine ⟨by decide, by decide, rfl⟩

/-- C6: in the rendered descriptor set exactly one entry — TM4 — has
the closing quote of the project-name substitution directly followed by
the trailing --local flag with no separator, and every entry's argument
string tokenizes into the correctly spaced flag/value sequence except
that TM4's last two tokens are fused. -/
theorem trailing_flag_missing_separator_unique :
    ((apps (fun _ => none) "test_abcd").filter
        (fun e => occursIn "\"--local".toList e.args.toList)).map
      (fun e => e.name) = ["TM4"] ∧
    (apps (fun _ => none) "test_abcd").map (fun e => tokenStrings e.args)
      = [wellSpacedTokens "M1" "cuda:2" "test_abcd",
         wellSpacedTokens "M2" "cuda:3" "test_abcd",
         wellSpacedTokens "M3" "cuda:4" "test_abcd",
         fusedTrailingTokens "M4" "cuda:5" "test_abcd",
         wellSpacedTokens "M5" "cuda:6" "test_abcd",
         wellSpacedTokens "V1" "cuda:1" "test_abcd"] :=
  ⟨by decide, by decide⟩

/-- C7: for every load, the process names of the descriptor set are
unique, and for each role the names of that role's entries are exactly
the role prefix followed by the contiguous indices 1 up to the role's
entry count (5 miners, 1 validator, 0 aggregators). -/
theorem process_names_unique_contiguous (ambient : Env) (pn : String) :
    ((apps ambient pn).map (fun e => e.name)).Nodup ∧
    (roleEntries Role.miner ambient pn).length = 5 ∧
    (roleEntries Role.validator ambient pn).length = 1 ∧
    (roleEntries Role.aggregator ambient pn).length = 0 ∧
    (roleEntries Role.miner ambient pn).map (fun e => e.name)
      = (rangeList 1 (5 + 1)).map (fun i => rolePrefix Role.miner ++ toString i) ∧
    (roleEntries Role.validator ambient pn).map (fun e => e.name)
      = (rangeList 1 (1 + 1)).map (fun i => rolePrefix Role.validator ++ toString i) ∧
    (roleEntries Role.aggregator ambient pn).map (fun e => e.name)
      = (rangeList 1 (0 + 1)).map (fun i => rolePrefix Role.aggregator ++ toString i) := by
  refine ⟨?_, rfl, rfl, rfl, rfl, rfl, rfl⟩
  have h : (apps ambient pn).map (fun e => e.name)
      = ["TM1", "TM2", "TM3", "TM4", "TM5", "TV1"] := rfl
  rw [h]
  decide

/-- C10: the interactive script performs no validation of the node
type: any non-blank response — including one outside miner/validator —
is accepted verbatim, interpolated into docker/compose.NODE_TYPE.yml,
and handed to docker compose -f unchanged, while a blank response
defaults to miner. -/
theorem node_type_unvalidated_interpolation
    (response : String) (hr : response ≠ "") :
    prompt_with_default response "miner" = response ∧
    prompt_with_default "" "miner" = "miner" ∧
    COMPOSE_FILE response = "docker/compose." ++ response ++ ".yml" ∧
    dockerComposeUp response
      = ["docker", "compose", "-f", "docker/compose." ++ response ++ ".yml",
         "up", "-d"] := by
  refine ⟨?_, rfl, rfl, rfl⟩
  simp [prompt_with_default, hr]

/-- Witness for C10: the node-type response bogus, which names no
compose file, still reaches docker compose verbatim. -/
theorem node_type_unvalidated_interpolation_witness :
    ("bogus" : String) ≠ "" ∧
    (prompt_with_default "bogus" "miner" = "bogus" ∧
     prompt_with_default "" "miner" = "miner" ∧
     COMPOSE_FILE "bogus" = "docker/compose.bogus.yml" ∧
     dockerComposeUp "bogus"
       = ["docker", "compose", "-f", "docker/compose.bogus.yml", "up", "-d"]) := by
  refine ⟨by decide, ?_⟩
  have h := node_type_unvalidated_interpolation "bogus" (by decide)
  simpa using h

end Templar
